import Mathlib

/-!
# The non-blocking TLS session adapter of swoole (src/protocol/SSL.c)

A shallow embedding of the functions of `SSL.c` that drive a TLS session:
`swSSL_accept`, `swSSL_connect`, `swSSL_close`, `swSSL_recv`, `swSSL_send`
and `swSSL_create`.

* The TLS engine (OpenSSL) is an external library.  It is a parameter of every
  function: a record `Engine σ` of operations over a state `σ` that the adapter
  never looks into, so that a theorem quantified over the engine holds for every
  behaviour the engine can show.
* The constants of `swoole.h`, `Connection.h`, the OpenSSL headers and `errno.h`
  are not part of `SSL.c`; they are the fields of the parameter `Header`.
* Every call that `SSL.c` makes into the engine (and every `swWarn`) is appended to
  `State.trace`, which makes "the engine's decrypt-read is not invoked" or "the
  session is released once" statements about the program.
-/

namespace Swoole

/-- A C pointer value; `0` is `NULL`. -/
abbrev Ptr := Nat

/-- The constants that `SSL.c` takes from headers: `SW_OK`, `SW_ERR`, `SW_SSL_CLIENT`
(swoole.h), `SW_SSL_STATE_READY` (Connection.h), `SSL_ERROR_*` and
`SSL3_FLAGS_NO_RENEGOTIATE_CIPHERS` (OpenSSL), `EAGAIN` (errno.h). -/
structure Header where
  SW_OK : Int
  SW_ERR : Int
  SW_SSL_STATE_READY : Int
  SW_SSL_CLIENT : Int
  SSL_ERROR_WANT_READ : Int
  SSL_ERROR_WANT_WRITE : Int
  SSL_ERROR_SYSCALL : Int
  SSL3_FLAGS_NO_RENEGOTIATE_CIPHERS : Nat
  EAGAIN : Int
  deriving DecidableEq, Repr

/-- The calls `SSL.c` makes into the engine, with their arguments, and `swWarn`. -/
inductive Call where
  | SSL_do_handshake (ssl : Ptr)
  | SSL_connect (ssl : Ptr)
  | SSL_get_error (ssl : Ptr) (ret : Int)
  | ERR_reason_error_string (e : Int)
  | ERR_get_error
  | SSL_read (ssl : Ptr) (buf : Ptr) (num : Int)
  | SSL_write (ssl : Ptr) (buf : Ptr) (num : Int)
  | SSL_shutdown (ssl : Ptr)
  | SSL_free (ssl : Ptr)
  | SSL_new (ctx : Ptr)
  | SSL_set_fd (ssl : Ptr) (fd : Int)
  | SSL_set_connect_state (ssl : Ptr)
  | SSL_set_accept_state (ssl : Ptr)
  | swWarn
  deriving DecidableEq, Repr

/-- The engine operations `SSL.c` uses, over an engine state `σ` (all sessions,
the error queue, the buffers it fills).  `s3`, `s3_flags` and `set_s3_flags` stand
for the direct accesses `conn->ssl->s3` and `conn->ssl->s3->flags`. -/
structure Engine (σ : Type) where
  SSL_do_handshake : σ → Ptr → Int × σ
  SSL_connect : σ → Ptr → Int × σ
  SSL_get_error : σ → Ptr → Int → Int
  SSL_read : σ → Ptr → Ptr → Int → Int × σ
  SSL_write : σ → Ptr → Ptr → Int → Int × σ
  SSL_shutdown : σ → Ptr → Int × σ
  SSL_free : σ → Ptr → σ
  SSL_new : σ → Ptr → Ptr × σ
  SSL_set_fd : σ → Ptr → Int → Int × σ
  SSL_set_connect_state : σ → Ptr → σ
  SSL_set_accept_state : σ → Ptr → σ
  ERR_get_error : σ → Int × σ
  s3 : σ → Ptr → Ptr
  s3_flags : σ → Ptr → Nat
  set_s3_flags : σ → Ptr → Nat → σ

/-- The fields of `swConnection` that `SSL.c` reads or writes. -/
structure swConnection where
  fd : Int
  ssl : Ptr
  ssl_state : Int
  deriving DecidableEq, Repr

/-- What a function of `SSL.c` can read and change: the connection record, the
engine, `errno` (as assigned by `SSL.c`) and the trace of calls made so far. -/
structure State (σ : Type) where
  conn : swConnection
  eng : σ
  errno : Int
  trace : List Call

variable {σ : Type}

/-- The conversion of a `size_t` argument to the `int` parameter of `SSL_read` and
`SSL_write` (32-bit two's complement). -/
def int_of_size_t (n : Nat) : Int :=
  ((n + 2 ^ 31) % 2 ^ 32 : Nat) - 2 ^ 31

/-- The function `swSSL_accept`, SSL.c lines 93-116. -/
def swSSL_accept (h : Header) (E : Engine σ) (s : State σ) : Int × State σ :=
  let r := E.SSL_do_handshake s.eng s.conn.ssl
  let n := r.1
  let s1 : State σ :=
    { s with eng := r.2, trace := s.trace ++ [Call.SSL_do_handshake s.conn.ssl] }
  if n = 1 then
    let s2 : State σ :=
      { s1 with conn := { s1.conn with ssl_state := h.SW_SSL_STATE_READY } }
    let s3 : State σ :=
      if E.s3 s2.eng s2.conn.ssl ≠ 0 then
        let flags := E.s3_flags s2.eng s2.conn.ssl ||| h.SSL3_FLAGS_NO_RENEGOTIATE_CIPHERS
        { s2 with eng := E.set_s3_flags s2.eng s2.conn.ssl flags }
      else s2
    (h.SW_OK, s3)
  else
    let err := E.SSL_get_error s1.eng s1.conn.ssl n
    let s2 : State σ := { s1 with trace := s1.trace ++ [Call.SSL_get_error s1.conn.ssl n] }
    if err = h.SSL_ERROR_WANT_READ then (h.SW_OK, s2)
    else if err = h.SSL_ERROR_WANT_WRITE then (h.SW_OK, s2)
    else
      (h.SW_ERR,
        { s2 with trace := s2.trace ++ [Call.ERR_reason_error_string err, Call.swWarn] })

/-- The function `swSSL_connect`, SSL.c lines 118-137. -/
def swSSL_connect (h : Header) (E : Engine σ) (s : State σ) : Int × State σ :=
  let r := E.SSL_connect s.eng s.conn.ssl
  let n := r.1
  let s1 : State σ :=
    { s with eng := r.2, trace := s.trace ++ [Call.SSL_connect s.conn.ssl] }
  if n = 1 then
    (h.SW_OK, { s1 with conn := { s1.conn with ssl_state := 1 } })
  else
    let err := E.SSL_get_error s1.eng s1.conn.ssl n
    let s2 : State σ := { s1 with trace := s1.trace ++ [Call.SSL_get_error s1.conn.ssl n] }
    if err = h.SSL_ERROR_WANT_READ then (h.SW_OK, s2)
    else if err = h.SSL_ERROR_WANT_WRITE then (h.SW_OK, s2)
    else
      (h.SW_ERR,
        { s2 with trace := s2.trace ++ [Call.ERR_reason_error_string err, Call.swWarn] })

/-- The function `swSSL_close`, SSL.c lines 139-143. -/
def swSSL_close (E : Engine σ) (s : State σ) : State σ :=
  let r := E.SSL_shutdown s.eng s.conn.ssl
  let s1 : State σ := { s with eng := r.2, trace := s.trace ++ [Call.SSL_shutdown s.conn.ssl] }
  { s1 with eng := E.SSL_free s1.eng s1.conn.ssl,
            trace := s1.trace ++ [Call.SSL_free s1.conn.ssl] }

/-- The part of `swSSL_recv` from the call of `SSL_read` on, SSL.c lines 153-170. -/
def swSSL_recv_read (h : Header) (E : Engine σ) (s : State σ) (__buf : Ptr) (__n : Nat) :
    Int × State σ :=
  let r := E.SSL_read s.eng s.conn.ssl __buf (int_of_size_t __n)
  let n := r.1
  let s1 : State σ :=
    { s with eng := r.2,
             trace := s.trace ++ [Call.SSL_read s.conn.ssl __buf (int_of_size_t __n)] }
  if n < 0 then
    let _errno := E.SSL_get_error s1.eng s1.conn.ssl n
    let s2 : State σ := { s1 with trace := s1.trace ++ [Call.SSL_get_error s1.conn.ssl n] }
    if _errno = h.SSL_ERROR_WANT_READ ∨ _errno = h.SSL_ERROR_WANT_WRITE then
      (h.SW_ERR, { s2 with errno := h.EAGAIN })
    else if _errno = h.SSL_ERROR_SYSCALL then (h.SW_ERR, s2)
    else (h.SW_ERR, { s2 with trace := s2.trace ++ [Call.swWarn] })
  else (n, s1)

/-- The function `swSSL_recv`, SSL.c lines 145-171.  The condition of line 147 is a
short-circuit `&&`: `swSSL_accept` runs only when `ssl_state == 0`. -/
def swSSL_recv (h : Header) (E : Engine σ) (s : State σ) (__buf : Ptr) (__n : Nat) :
    Int × State σ :=
  if s.conn.ssl_state = 0 then
    let a := swSSL_accept h E s
    if a.1 < 0 then (0, a.2)
    else swSSL_recv_read h E a.2 __buf __n
  else swSSL_recv_read h E s __buf __n

/-- The function `swSSL_send`, SSL.c lines 173-189. -/
def swSSL_send (h : Header) (E : Engine σ) (s : State σ) (__buf : Ptr) (__n : Nat) :
    Int × State σ :=
  let r := E.SSL_write s.eng s.conn.ssl __buf (int_of_size_t __n)
  let n := r.1
  let s1 : State σ :=
    { s with eng := r.2,
             trace := s.trace ++ [Call.SSL_write s.conn.ssl __buf (int_of_size_t __n)] }
  if n < 0 then
    let e := E.SSL_get_error s1.eng s1.conn.ssl n
    let s2 : State σ := { s1 with trace := s1.trace ++ [Call.SSL_get_error s1.conn.ssl n] }
    if e = h.SSL_ERROR_WANT_READ ∨ e = h.SSL_ERROR_WANT_WRITE then
      (h.SW_ERR, { s2 with errno := h.EAGAIN })
    else (h.SW_ERR, s2)
  else (n, s1)

/-- The function `swSSL_create`, SSL.c lines 191-216. -/
def swSSL_create (h : Header) (E : Engine σ) (s : State σ) (ssl_context : Ptr) (flags : Int) :
    Int × State σ :=
  let r := E.SSL_new s.eng ssl_context
  let ssl := r.1
  let s1 : State σ := { s with eng := r.2, trace := s.trace ++ [Call.SSL_new ssl_context] }
  if ssl = 0 then
    (h.SW_ERR, { s1 with trace := s1.trace ++ [Call.swWarn] })
  else
    let b := E.SSL_set_fd s1.eng ssl s1.conn.fd
    let s2 : State σ :=
      { s1 with eng := b.2, trace := s1.trace ++ [Call.SSL_set_fd ssl s1.conn.fd] }
    if b.1 = 0 then
      let e := E.ERR_get_error s2.eng
      (h.SW_ERR,
        { s2 with eng := e.2,
                  trace := s2.trace ++
                    [Call.ERR_get_error, Call.ERR_reason_error_string e.1, Call.swWarn] })
    else
      let s3 : State σ :=
        if Int.land flags h.SW_SSL_CLIENT ≠ 0 then
          { s2 with eng := E.SSL_set_connect_state s2.eng ssl,
                    trace := s2.trace ++ [Call.SSL_set_connect_state ssl] }
        else
          { s2 with eng := E.SSL_set_accept_state s2.eng ssl,
                    trace := s2.trace ++ [Call.SSL_set_accept_state ssl] }
      (h.SW_OK, { s3 with conn := { s3.conn with ssl := ssl, ssl_state := 0 } })

/-! ## Repeated calls -/

/-- The calls the event loop can make on one connection after its creation. -/
inductive Op where
  | accept
  | connect
  | recv (__buf : Ptr) (__n : Nat)
  | send (__buf : Ptr) (__n : Nat)
  deriving DecidableEq, Repr

/-- One call of the adapter. -/
def callOp (h : Header) (E : Engine σ) (s : State σ) : Op → Int × State σ
  | Op.accept => swSSL_accept h E s
  | Op.connect => swSSL_connect h E s
  | Op.recv b n => swSSL_recv h E s b n
  | Op.send b n => swSSL_send h E s b n

/-- A sequence of calls on one connection, each starting where the previous one ended. -/
def runOps (h : Header) (E : Engine σ) : State σ → List Op → State σ
  | s, [] => s
  | s, o :: os => runOps h E (callOp h E s o).2 os

/-- The results and the final state of `n` consecutive calls of a handshake driver `f`. -/
def drive (f : State σ → Int × State σ) : Nat → State σ → List Int × State σ
  | 0, s => ([], s)
  | n + 1, s => ((f s).1 :: (drive f n (f s).2).1, (drive f n (f s).2).2)

/-- The engine's answer to a handshake step is a retry signal: the step does not report
completion and the error is `SSL_ERROR_WANT_READ` or `SSL_ERROR_WANT_WRITE`. -/
def wouldBlock (h : Header) (E : Engine σ) (ssl : Ptr) (r : Int × σ) : Prop :=
  r.1 ≠ 1 ∧ (E.SSL_get_error r.2 ssl r.1 = h.SSL_ERROR_WANT_READ ∨
    E.SSL_get_error r.2 ssl r.1 = h.SSL_ERROR_WANT_WRITE)

instance (h : Header) (E : Engine σ) (ssl : Ptr) (r : Int × σ) :
    Decidable (wouldBlock h E ssl r) := by
  unfold wouldBlock; infer_instance

/-- The engine step `step` answers with a retry signal on its next `m` calls for
session `ssl` and reports completion on the call after them. -/
def blocksThenCompletes (h : Header) (E : Engine σ) (step : σ → Ptr → Int × σ) (ssl : Ptr) :
    Nat → σ → Prop
  | 0, e => (step e ssl).1 = 1
  | m + 1, e => wouldBlock h E ssl (step e ssl) ∧
      blocksThenCompletes h E step ssl m (step e ssl).2

/-- The call is a handshake step of the engine. -/
def Call.isHandshake : Call → Bool
  | Call.SSL_do_handshake _ => true
  | Call.SSL_connect _ => true
  | _ => false

/-- The call is the engine's decrypt-read. -/
def Call.isRead : Call → Bool
  | Call.SSL_read _ _ _ => true
  | _ => false

/-- The classification of an engine result `n` with error code `e`, in the words of
the specification: `n` itself when `n >= 0`; otherwise `SW_ERR`, with `errno` set to
`EAGAIN` exactly for the two retry signals.  The pair is (return value, errno). -/
def classify_spec (h : Header) (n e errno : Int) : Int × Int :=
  if 0 ≤ n then (n, errno)
  else (h.SW_ERR,
    if e = h.SSL_ERROR_WANT_READ ∨ e = h.SSL_ERROR_WANT_WRITE then h.EAGAIN else errno)

/-! ## A scripted engine for concrete runs -/

/-- The header values of the concrete runs: `SW_OK` 0, `SW_ERR` -1, Ready 1,
`SW_SSL_CLIENT` 2, the OpenSSL error codes 2, 3 and 5, `EAGAIN` 11. -/
def swoole_h : Header :=
  { SW_OK := 0, SW_ERR := -1, SW_SSL_STATE_READY := 1, SW_SSL_CLIENT := 2,
    SSL_ERROR_WANT_READ := 2, SSL_ERROR_WANT_WRITE := 3, SSL_ERROR_SYSCALL := 5,
    SSL3_FLAGS_NO_RENEGOTIATE_CIPHERS := 1, EAGAIN := 11 }

/-- The state of the scripted engine: the answers (return value, error code) still to
be given by handshake, read and write calls, the error code of the latest answer, the
next handle `SSL_new` hands out (0: allocation fails), the handles released so far,
the number of engine calls made on a handle that was already released, and the
`s3->flags` word. -/
structure Sim where
  script : List (Int × Int)
  last : Int
  next : Ptr
  released : List Ptr
  stale : Nat
  flags : Nat
  deriving DecidableEq, Repr

/-- The next scripted answer; an exhausted script answers -1 with error code 1. -/
def Sim.answer (e : Sim) : Int × Sim :=
  match e.script with
  | [] => (-1, { e with last := 1 })
  | a :: rest => (a.1, { e with script := rest, last := a.2 })

/-- Count a call on handle `p` as stale when `p` was released before. -/
def Sim.touch (e : Sim) (p : Ptr) : Sim :=
  if p ∈ e.released then { e with stale := e.stale + 1 } else e

/-- The scripted engine.  Binding a negative fd fails. -/
def simEngine : Engine Sim :=
  { SSL_do_handshake := fun e _ => e.answer
    SSL_connect := fun e _ => e.answer
    SSL_get_error := fun e _ _ => e.last
    SSL_read := fun e _ _ _ => e.answer
    SSL_write := fun e _ _ _ => e.answer
    SSL_shutdown := fun e p => (0, e.touch p)
    SSL_free := fun e p => { e.touch p with released := (e.touch p).released ++ [p] }
    SSL_new := fun e _ => (e.next, if e.next = 0 then e else { e with next := e.next + 1 })
    SSL_set_fd := fun e _ fd => (if fd < 0 then 0 else 1, e)
    SSL_set_connect_state := fun e _ => e
    SSL_set_accept_state := fun e _ => e
    ERR_get_error := fun e => (e.last, e)
    s3 := fun _ p => p
    s3_flags := fun e _ => e.flags
    set_s3_flags := fun e _ f => { e with flags := f } }

/-- A connection with session handle 7 on fd 5 in handshake state `st`, over the
scripted engine with the given script; `errno` is 0 and nothing has been called. -/
def simState (st : Int) (script : List (Int × Int)) : State Sim :=
  { conn := { fd := 5, ssl := 7, ssl_state := st }
    eng := { script := script, last := 0, next := 8, released := [], stale := 0, flags := 0 }
    errno := 0
    trace := [] }

/-! ## Properties of the handshake drivers -/

theorem accept_complete (h : Header) (E : Engine σ) (s : State σ)
    (hn : (E.SSL_do_handshake s.eng s.conn.ssl).1 = 1) :
    (swSSL_accept h E s).1 = h.SW_OK ∧
      (swSSL_accept h E s).2.conn.ssl_state = h.SW_SSL_STATE_READY := by
  unfold swSSL_accept
  simp only [hn, if_true]
  refine ⟨trivial, ?_⟩
  split <;> rfl

theorem connect_complete (h : Header) (E : Engine σ) (s : State σ)
    (hn : (E.SSL_connect s.eng s.conn.ssl).1 = 1) :
    (swSSL_connect h E s).1 = h.SW_OK ∧ (swSSL_connect h E s).2.conn.ssl_state = 1 := by
  unfold swSSL_connect
  simp [hn]

theorem accept_wouldBlock (h : Header) (E : Engine σ) (s : State σ)
    (hb : wouldBlock h E s.conn.ssl (E.SSL_do_handshake s.eng s.conn.ssl)) :
    swSSL_accept h E s = (h.SW_OK,
      { s with eng := (E.SSL_do_handshake s.eng s.conn.ssl).2,
               trace := s.trace ++ [Call.SSL_do_handshake s.conn.ssl,
                 Call.SSL_get_error s.conn.ssl (E.SSL_do_handshake s.eng s.conn.ssl).1] }) := by
  obtain ⟨hn, he⟩ := hb
  unfold swSSL_accept
  simp only [hn, if_false]
  rcases he with he | he
  · simp [he]
  · simp only [he, if_true]
    split <;> simp

theorem connect_wouldBlock (h : Header) (E : Engine σ) (s : State σ)
    (hb : wouldBlock h E s.conn.ssl (E.SSL_connect s.eng s.conn.ssl)) :
    swSSL_connect h E s = (h.SW_OK,
      { s with eng := (E.SSL_connect s.eng s.conn.ssl).2,
               trace := s.trace ++ [Call.SSL_connect s.conn.ssl,
                 Call.SSL_get_error s.conn.ssl (E.SSL_connect s.eng s.conn.ssl).1] }) := by
  obtain ⟨hn, he⟩ := hb
  unfold swSSL_connect
  simp only [hn, if_false]
  rcases he with he | he
  · simp [he]
  · simp only [he, if_true]
    split <;> simp

theorem accept_fatal (h : Header) (E : Engine σ) (s : State σ)
    (hn : (E.SSL_do_handshake s.eng s.conn.ssl).1 ≠ 1)
    (hr : E.SSL_get_error (E.SSL_do_handshake s.eng s.conn.ssl).2 s.conn.ssl
      (E.SSL_do_handshake s.eng s.conn.ssl).1 ≠ h.SSL_ERROR_WANT_READ)
    (hw : E.SSL_get_error (E.SSL_do_handshake s.eng s.conn.ssl).2 s.conn.ssl
      (E.SSL_do_handshake s.eng s.conn.ssl).1 ≠ h.SSL_ERROR_WANT_WRITE) :
    (swSSL_accept h E s).1 = h.SW_ERR ∧ (swSSL_accept h E s).2.conn = s.conn := by
  unfold swSSL_accept
  simp [hn, hr, hw]

theorem connect_fatal (h : Header) (E : Engine σ) (s : State σ)
    (hn : (E.SSL_connect s.eng s.conn.ssl).1 ≠ 1)
    (hr : E.SSL_get_error (E.SSL_connect s.eng s.conn.ssl).2 s.conn.ssl
      (E.SSL_connect s.eng s.conn.ssl).1 ≠ h.SSL_ERROR_WANT_READ)
    (hw : E.SSL_get_error (E.SSL_connect s.eng s.conn.ssl).2 s.conn.ssl
      (E.SSL_connect s.eng s.conn.ssl).1 ≠ h.SSL_ERROR_WANT_WRITE) :
    (swSSL_connect h E s).1 = h.SW_ERR ∧ (swSSL_connect h E s).2.conn = s.conn := by
  unfold swSSL_connect
  simp [hn, hr, hw]

/-- C1: when the engine's handshake step reports completion (returns 1), the driver of
either role returns `SW_OK` and leaves the handshake state Ready; with
`SW_SSL_STATE_READY` being 1, the literal 1 that `swSSL_connect` stores is the value
`swSSL_accept` stores. -/
theorem handshake_completion_ready (h : Header) (E : Engine σ) (s : State σ)
    (hReady : h.SW_SSL_STATE_READY = 1) :
    ((E.SSL_do_handshake s.eng s.conn.ssl).1 = 1 →
      (swSSL_accept h E s).1 = h.SW_OK ∧
      (swSSL_accept h E s).2.conn.ssl_state = h.SW_SSL_STATE_READY) ∧
    ((E.SSL_connect s.eng s.conn.ssl).1 = 1 →
      (swSSL_connect h E s).1 = h.SW_OK ∧
      (swSSL_connect h E s).2.conn.ssl_state = h.SW_SSL_STATE_READY) ∧
    ((E.SSL_do_handshake s.eng s.conn.ssl).1 = 1 → (E.SSL_connect s.eng s.conn.ssl).1 = 1 →
      (swSSL_connect h E s).2.conn.ssl_state = (swSSL_accept h E s).2.conn.ssl_state) := by
  refine ⟨accept_complete h E s, ?_, ?_⟩
  · intro hn
    rw [hReady]
    exact connect_complete h E s hn
  · intro ha hc
    rw [(connect_complete h E s hc).2, (accept_complete h E s ha).2, hReady]

/-- C1, a concrete run: the scripted engine completes the handshake at once. -/
theorem handshake_completion_ready_witness :
    swoole_h.SW_SSL_STATE_READY = 1 ∧
    (simEngine.SSL_do_handshake (simState 0 [(1, 0)]).eng 7).1 = 1 ∧
    (simEngine.SSL_connect (simState 0 [(1, 0)]).eng 7).1 = 1 ∧
    (swSSL_accept swoole_h simEngine (simState 0 [(1, 0)])).1 = 0 ∧
    (swSSL_accept swoole_h simEngine (simState 0 [(1, 0)])).2.conn.ssl_state = 1 ∧
    (swSSL_connect swoole_h simEngine (simState 0 [(1, 0)])).1 = 0 ∧
    (swSSL_connect swoole_h simEngine (simState 0 [(1, 0)])).2.conn.ssl_state = 1 :=
  have w := handshake_completion_ready swoole_h simEngine (simState 0 [(1, 0)]) rfl
  ⟨rfl, rfl, rfl, (w.1 rfl).1, (w.1 rfl).2, (w.2.1 rfl).1, (w.2.1 rfl).2⟩

/-- C2, as stated, fails: the scripted engine fails the handshake step with error code
1, which is neither `SSL_ERROR_WANT_READ` (2) nor `SSL_ERROR_WANT_WRITE` (3); both
drivers return `SW_ERR`, and the handshake state is still 0, the value of a handshake
that has not started, not a Failed state. -/
theorem fatal_handshake_keeps_state_counterexample :
    (simEngine.SSL_do_handshake (simState 0 [(-1, 1)]).eng 7).1 = -1 ∧
    simEngine.SSL_get_error (simEngine.SSL_do_handshake (simState 0 [(-1, 1)]).eng 7).2 7 (-1)
      = 1 ∧
    (swSSL_accept swoole_h simEngine (simState 0 [(-1, 1)])).1 = swoole_h.SW_ERR ∧
    (swSSL_accept swoole_h simEngine (simState 0 [(-1, 1)])).2.conn.ssl_state = 0 ∧
    (swSSL_connect swoole_h simEngine (simState 0 [(-1, 1)])).1 = swoole_h.SW_ERR ∧
    (swSSL_connect swoole_h simEngine (simState 0 [(-1, 1)])).2.conn.ssl_state = 0 := by
  decide

/-- C2, amended: when the engine's handshake step fails with an error that is neither
`SSL_ERROR_WANT_READ` nor `SSL_ERROR_WANT_WRITE`, the driver of either role returns
`SW_ERR` and leaves the connection record, the handshake state included, as it was. -/
theorem fatal_handshake_returns_err (h : Header) (E : Engine σ) (s : State σ) :
    ((E.SSL_do_handshake s.eng s.conn.ssl).1 ≠ 1 →
      E.SSL_get_error (E.SSL_do_handshake s.eng s.conn.ssl).2 s.conn.ssl
        (E.SSL_do_handshake s.eng s.conn.ssl).1 ≠ h.SSL_ERROR_WANT_READ →
      E.SSL_get_error (E.SSL_do_handshake s.eng s.conn.ssl).2 s.conn.ssl
        (E.SSL_do_handshake s.eng s.conn.ssl).1 ≠ h.SSL_ERROR_WANT_WRITE →
      (swSSL_accept h E s).1 = h.SW_ERR ∧
      (swSSL_accept h E s).2.conn.ssl_state = s.conn.ssl_state ∧
      (swSSL_accept h E s).2.conn = s.conn) ∧
    ((E.SSL_connect s.eng s.conn.ssl).1 ≠ 1 →
      E.SSL_get_error (E.SSL_connect s.eng s.conn.ssl).2 s.conn.ssl
        (E.SSL_connect s.eng s.conn.ssl).1 ≠ h.SSL_ERROR_WANT_READ →
      E.SSL_get_error (E.SSL_connect s.eng s.conn.ssl).2 s.conn.ssl
        (E.SSL_connect s.eng s.conn.ssl).1 ≠ h.SSL_ERROR_WANT_WRITE →
      (swSSL_connect h E s).1 = h.SW_ERR ∧
      (swSSL_connect h E s).2.conn.ssl_state = s.conn.ssl_state ∧
      (swSSL_connect h E s).2.conn = s.conn) := by
  constructor
  · intro hn hr hw
    have k := accept_fatal h E s hn hr hw
    exact ⟨k.1, by rw [k.2], k.2⟩
  · intro hn hr hw
    have k := connect_fatal h E s hn hr hw
    exact ⟨k.1, by rw [k.2], k.2⟩

/-- C2, amended, a concrete run: the handshake step fails with error code 1. -/
theorem fatal_handshake_returns_err_witness :
    (swSSL_accept swoole_h simEngine (simState 0 [(-1, 1)])).1 = -1 ∧
    (swSSL_accept swoole_h simEngine (simState 0 [(-1, 1)])).2.conn.ssl_state = 0 ∧
    (swSSL_connect swoole_h simEngine (simState 0 [(-1, 1)])).1 = -1 ∧
    (swSSL_connect swoole_h simEngine (simState 0 [(-1, 1)])).2.conn.ssl_state = 0 :=
  have w := fatal_handshake_returns_err swoole_h simEngine (simState 0 [(-1, 1)])
  have a := w.1 (by decide) (by decide) (by decide)
  have c := w.2 (by decide) (by decide) (by decide)
  ⟨a.1, a.2.1, c.1, c.2.1⟩

/-- C3, as stated, fails: on a step that needs more input (error code 2) and on a step
that needs to flush output (error code 3) `swSSL_accept` returns the same value 0 and
leaves the same connection record and the same `errno`; so does `swSSL_connect`. -/
theorem retry_signals_same_result_counterexample :
    simEngine.SSL_get_error (simEngine.SSL_do_handshake (simState 0 [(-1, 2)]).eng 7).2 7 (-1)
      = swoole_h.SSL_ERROR_WANT_READ ∧
    simEngine.SSL_get_error (simEngine.SSL_do_handshake (simState 0 [(-1, 3)]).eng 7).2 7 (-1)
      = swoole_h.SSL_ERROR_WANT_WRITE ∧
    (swSSL_accept swoole_h simEngine (simState 0 [(-1, 2)])).1 =
      (swSSL_accept swoole_h simEngine (simState 0 [(-1, 3)])).1 ∧
    (swSSL_accept swoole_h simEngine (simState 0 [(-1, 2)])).2.conn =
      (swSSL_accept swoole_h simEngine (simState 0 [(-1, 3)])).2.conn ∧
    (swSSL_accept swoole_h simEngine (simState 0 [(-1, 2)])).2.errno =
      (swSSL_accept swoole_h simEngine (simState 0 [(-1, 3)])).2.errno ∧
    (swSSL_connect swoole_h simEngine (simState 0 [(-1, 2)])).1 =
      (swSSL_connect swoole_h simEngine (simState 0 [(-1, 3)])).1 ∧
    (swSSL_connect swoole_h simEngine (simState 0 [(-1, 2)])).2.conn =
      (swSSL_connect swoole_h simEngine (simState 0 [(-1, 3)])).2.conn ∧
    (swSSL_connect swoole_h simEngine (simState 0 [(-1, 2)])).2.errno =
      (swSSL_connect swoole_h simEngine (simState 0 [(-1, 3)])).2.errno := by
  decide

/-- C3, amended: the driver of either role returns the same result for both retry
signals: if on one connection the engine needs more input and on a connection with an
equal record and `errno` it needs to flush output, the two calls return the same value
(`SW_OK`) and leave equal connection records and equal `errno`. -/
theorem retry_signals_same_result {τ : Type} (h : Header) (E : Engine σ) (F : Engine τ)
    (s : State σ) (t : State τ) (hconn : s.conn = t.conn) (herrno : s.errno = t.errno) :
    ((E.SSL_do_handshake s.eng s.conn.ssl).1 ≠ 1 →
      E.SSL_get_error (E.SSL_do_handshake s.eng s.conn.ssl).2 s.conn.ssl
        (E.SSL_do_handshake s.eng s.conn.ssl).1 = h.SSL_ERROR_WANT_READ →
      (F.SSL_do_handshake t.eng t.conn.ssl).1 ≠ 1 →
      F.SSL_get_error (F.SSL_do_handshake t.eng t.conn.ssl).2 t.conn.ssl
        (F.SSL_do_handshake t.eng t.conn.ssl).1 = h.SSL_ERROR_WANT_WRITE →
      (swSSL_accept h E s).1 = h.SW_OK ∧ (swSSL_accept h F t).1 = h.SW_OK ∧
      (swSSL_accept h E s).2.conn = (swSSL_accept h F t).2.conn ∧
      (swSSL_accept h E s).2.errno = (swSSL_accept h F t).2.errno) ∧
    ((E.SSL_connect s.eng s.conn.ssl).1 ≠ 1 →
      E.SSL_get_error (E.SSL_connect s.eng s.conn.ssl).2 s.conn.ssl
        (E.SSL_connect s.eng s.conn.ssl).1 = h.SSL_ERROR_WANT_READ →
      (F.SSL_connect t.eng t.conn.ssl).1 ≠ 1 →
      F.SSL_get_error (F.SSL_connect t.eng t.conn.ssl).2 t.conn.ssl
        (F.SSL_connect t.eng t.conn.ssl).1 = h.SSL_ERROR_WANT_WRITE →
      (swSSL_connect h E s).1 = h.SW_OK ∧ (swSSL_connect h F t).1 = h.SW_OK ∧
      (swSSL_connect h E s).2.conn = (swSSL_connect h F t).2.conn ∧
      (swSSL_connect h E s).2.errno = (swSSL_connect h F t).2.errno) := by
  constructor
  · intro hn hr hm hw
    rw [accept_wouldBlock h E s ⟨hn, Or.inl hr⟩, accept_wouldBlock h F t ⟨hm, Or.inr hw⟩]
    exact ⟨rfl, rfl, hconn, herrno⟩
  · intro hn hr hm hw
    rw [connect_wouldBlock h E s ⟨hn, Or.inl hr⟩, connect_wouldBlock h F t ⟨hm, Or.inr hw⟩]
    exact ⟨rfl, rfl, hconn, herrno⟩

/-- C3, amended, a concrete run: error code 2 on one connection, 3 on the other. -/
theorem retry_signals_same_result_witness :
    (swSSL_accept swoole_h simEngine (simState 0 [(-1, 2)])).1 = 0 ∧
    (swSSL_accept swoole_h simEngine (simState 0 [(-1, 3)])).1 = 0 ∧
    (swSSL_connect swoole_h simEngine (simState 0 [(-1, 2)])).1 = 0 ∧
    (swSSL_connect swoole_h simEngine (simState 0 [(-1, 3)])).1 = 0 :=
  have w := retry_signals_same_result swoole_h simEngine simEngine
    (simState 0 [(-1, 2)]) (simState 0 [(-1, 3)]) rfl rfl
  have a := w.1 (by decide) (by decide) (by decide) (by decide)
  have c := w.2 (by decide) (by decide) (by decide) (by decide)
  ⟨a.1, a.2.1, c.1, c.2.1⟩

theorem drive_accept (h : Header) (E : Engine σ) (m : Nat) :
    ∀ s : State σ, blocksThenCompletes h E E.SSL_do_handshake s.conn.ssl m s.eng →
      (drive (swSSL_accept h E) m s).2.conn = s.conn ∧
      (drive (swSSL_accept h E) (m + 1) s).1 = List.replicate (m + 1) h.SW_OK ∧
      (drive (swSSL_accept h E) (m + 1) s).2.conn.ssl_state = h.SW_SSL_STATE_READY := by
  induction m with
  | zero =>
    intro s hc
    have k := accept_complete h E s hc
    simp only [drive, List.replicate]
    exact ⟨trivial, by rw [k.1], k.2⟩
  | succ m ih =>
    intro s hc
    obtain ⟨hb, hrest⟩ := hc
    have e := accept_wouldBlock h E s hb
    have k := ih (swSSL_accept h E s).2 (by rw [e]; exact hrest)
    refine ⟨?_, ?_, ?_⟩
    · show (drive (swSSL_accept h E) m (swSSL_accept h E s).2).2.conn = s.conn
      rw [k.1, e]
    · show (swSSL_accept h E s).1 :: (drive (swSSL_accept h E) (m + 1) (swSSL_accept h E s).2).1 = _
      rw [k.2.1, e]
      rfl
    · exact k.2.2

theorem drive_connect (h : Header) (E : Engine σ) (m : Nat) :
    ∀ s : State σ, blocksThenCompletes h E E.SSL_connect s.conn.ssl m s.eng →
      (drive (swSSL_connect h E) m s).2.conn = s.conn ∧
      (drive (swSSL_connect h E) (m + 1) s).1 = List.replicate (m + 1) h.SW_OK ∧
      (drive (swSSL_connect h E) (m + 1) s).2.conn.ssl_state = 1 := by
  induction m with
  | zero =>
    intro s hc
    have k := connect_complete h E s hc
    simp only [drive, List.replicate]
    exact ⟨trivial, by rw [k.1], k.2⟩
  | succ m ih =>
    intro s hc
    obtain ⟨hb, hrest⟩ := hc
    have e := connect_wouldBlock h E s hb
    have k := ih (swSSL_connect h E s).2 (by rw [e]; exact hrest)
    refine ⟨?_, ?_, ?_⟩
    · show (drive (swSSL_connect h E) m (swSSL_connect h E s).2).2.conn = s.conn
      rw [k.1, e]
    · show (swSSL_connect h E s).1 :: (drive (swSSL_connect h E) (m + 1) (swSSL_connect h E s).2).1 = _
      rw [k.2.1, e]
      rfl
    · exact k.2.2

/-- C4: when the engine's handshake step signals that it needs more input or needs to
flush output, the driver of either role returns `SW_OK`, which is not `SW_ERR`, and
leaves the connection record, the handshake state included, exactly as it was; hence
`m` consecutive calls that would block followed by one call on which the engine
completes all return `SW_OK`, the state being unchanged after the first `m` and Ready
(`SW_SSL_STATE_READY` on the accept side, the literal 1 on the connect side) at the end. -/
theorem wouldBlock_keeps_state (h : Header) (E : Engine σ) (s : State σ)
    (hOK : h.SW_OK ≠ h.SW_ERR) :
    (wouldBlock h E s.conn.ssl (E.SSL_do_handshake s.eng s.conn.ssl) →
      (swSSL_accept h E s).1 = h.SW_OK ∧ (swSSL_accept h E s).1 ≠ h.SW_ERR ∧
      (swSSL_accept h E s).2.conn.ssl_state = s.conn.ssl_state ∧
      (swSSL_accept h E s).2.conn = s.conn) ∧
    (wouldBlock h E s.conn.ssl (E.SSL_connect s.eng s.conn.ssl) →
      (swSSL_connect h E s).1 = h.SW_OK ∧ (swSSL_connect h E s).1 ≠ h.SW_ERR ∧
      (swSSL_connect h E s).2.conn.ssl_state = s.conn.ssl_state ∧
      (swSSL_connect h E s).2.conn = s.conn) ∧
    (∀ m, blocksThenCompletes h E E.SSL_do_handshake s.conn.ssl m s.eng →
      (drive (swSSL_accept h E) m s).2.conn.ssl_state = s.conn.ssl_state ∧
      (drive (swSSL_accept h E) (m + 1) s).1 = List.replicate (m + 1) h.SW_OK ∧
      (drive (swSSL_accept h E) (m + 1) s).2.conn.ssl_state = h.SW_SSL_STATE_READY) ∧
    (∀ m, blocksThenCompletes h E E.SSL_connect s.conn.ssl m s.eng →
      (drive (swSSL_connect h E) m s).2.conn.ssl_state = s.conn.ssl_state ∧
      (drive (swSSL_connect h E) (m + 1) s).1 = List.replicate (m + 1) h.SW_OK ∧
      (drive (swSSL_connect h E) (m + 1) s).2.conn.ssl_state = 1) := by
  refine ⟨?_, ?_, ?_, ?_⟩
  · intro hb
    rw [accept_wouldBlock h E s hb]
    exact ⟨rfl, hOK, rfl, rfl⟩
  · intro hb
    rw [connect_wouldBlock h E s hb]
    exact ⟨rfl, hOK, rfl, rfl⟩
  · intro m hc
    have k := drive_accept h E m s hc
    exact ⟨by rw [k.1], k.2⟩
  · intro m hc
    have k := drive_connect h E m s hc
    exact ⟨by rw [k.1], k.2⟩

/-- C4, a concrete run: the engine needs more input, then needs to flush output, then
completes; three calls return `SW_OK` and the state goes 0, 0, Ready. -/
theorem wouldBlock_keeps_state_witness :
    swoole_h.SW_OK ≠ swoole_h.SW_ERR ∧
    blocksThenCompletes swoole_h simEngine simEngine.SSL_do_handshake 7 2
      (simState 0 [(-1, 2), (-1, 3), (1, 0)]).eng ∧
    (swSSL_accept swoole_h simEngine (simState 0 [(-1, 2), (-1, 3), (1, 0)])).1 = 0 ∧
    (drive (swSSL_accept swoole_h simEngine) 2
      (simState 0 [(-1, 2), (-1, 3), (1, 0)])).2.conn.ssl_state = 0 ∧
    (drive (swSSL_accept swoole_h simEngine) 3
      (simState 0 [(-1, 2), (-1, 3), (1, 0)])).1 = [0, 0, 0] ∧
    (drive (swSSL_accept swoole_h simEngine) 3
      (simState 0 [(-1, 2), (-1, 3), (1, 0)])).2.conn.ssl_state = 1 ∧
    (drive (swSSL_connect swoole_h simEngine) 3
      (simState 0 [(-1, 2), (-1, 3), (1, 0)])).2.conn.ssl_state = 1 :=
  have w := wouldBlock_keeps_state swoole_h simEngine
    (simState 0 [(-1, 2), (-1, 3), (1, 0)]) (by decide)
  have hb : blocksThenCompletes swoole_h simEngine simEngine.SSL_do_handshake 7 2
      (simState 0 [(-1, 2), (-1, 3), (1, 0)]).eng := by
    simp [blocksThenCompletes, wouldBlock, simEngine, simState, Sim.answer, swoole_h]
  have hc : blocksThenCompletes swoole_h simEngine simEngine.SSL_connect 7 2
      (simState 0 [(-1, 2), (-1, 3), (1, 0)]).eng := by
    simp [blocksThenCompletes, wouldBlock, simEngine, simState, Sim.answer, swoole_h]
  ⟨by decide, hb, (w.1 (by decide)).1, (w.2.2.1 2 hb).1, (w.2.2.1 2 hb).2.1,
    (w.2.2.1 2 hb).2.2, (w.2.2.2 2 hc).2.2⟩

/-! ## Properties of read and write -/

theorem accept_conn (h : Header) (E : Engine σ) (s : State σ) :
    (swSSL_accept h E s).2.conn = { s.conn with ssl_state := h.SW_SSL_STATE_READY } ∨
      (swSSL_accept h E s).2.conn = s.conn := by
  unfold swSSL_accept
  simp only
  split
  · left
    split <;> rfl
  · right
    split
    · rfl
    · split <;> rfl

theorem connect_conn (h : Header) (E : Engine σ) (s : State σ) :
    (swSSL_connect h E s).2.conn = { s.conn with ssl_state := 1 } ∨
      (swSSL_connect h E s).2.conn = s.conn := by
  unfold swSSL_connect
  simp only
  split
  · left; rfl
  · right
    split
    · rfl
    · split <;> rfl

theorem accept_errno (h : Header) (E : Engine σ) (s : State σ) :
    (swSSL_accept h E s).2.errno = s.errno := by
  unfold swSSL_accept
  simp only
  split
  · split <;> rfl
  · split
    · rfl
    · split <;> rfl

theorem accept_trace (h : Header) (E : Engine σ) (s : State σ) :
    ∃ t, (swSSL_accept h E s).2.trace = s.trace ++ t ∧ ∀ c ∈ t, c.isRead = false := by
  unfold swSSL_accept
  simp only
  split
  · refine ⟨[Call.SSL_do_handshake s.conn.ssl], ?_, by simp [Call.isRead]⟩
    split <;> rfl
  · split
    · exact ⟨_, List.append_assoc _ _ _, by simp [Call.isRead]⟩
    · split
      · exact ⟨_, List.append_assoc _ _ _, by simp [Call.isRead]⟩
      · exact ⟨_, by rw [List.append_assoc, List.append_assoc], by simp [Call.isRead]⟩

theorem recv_read_conn (h : Header) (E : Engine σ) (s : State σ) (b : Ptr) (n : Nat) :
    (swSSL_recv_read h E s b n).2.conn = s.conn := by
  unfold swSSL_recv_read
  simp only
  split
  · split
    · rfl
    · split <;> rfl
  · rfl

theorem send_conn (h : Header) (E : Engine σ) (s : State σ) (b : Ptr) (n : Nat) :
    (swSSL_send h E s b n).2.conn = s.conn := by
  unfold swSSL_send
  simp only
  split
  · split <;> rfl
  · rfl

theorem recv_read_classify (h : Header) (E : Engine σ) (s : State σ) (b : Ptr) (n : Nat) :
    ((swSSL_recv_read h E s b n).1, (swSSL_recv_read h E s b n).2.errno) =
      classify_spec h (E.SSL_read s.eng s.conn.ssl b (int_of_size_t n)).1
        (E.SSL_get_error (E.SSL_read s.eng s.conn.ssl b (int_of_size_t n)).2 s.conn.ssl
          (E.SSL_read s.eng s.conn.ssl b (int_of_size_t n)).1) s.errno := by
  unfold swSSL_recv_read classify_spec
  simp only
  by_cases hn : (E.SSL_read s.eng s.conn.ssl b (int_of_size_t n)).1 < 0
  · rw [if_pos hn, if_neg (not_le.mpr hn)]
    split
    · rfl
    · split <;> rfl
  · rw [if_neg hn, if_pos (not_lt.mp hn)]

theorem send_classify (h : Header) (E : Engine σ) (s : State σ) (b : Ptr) (n : Nat) :
    ((swSSL_send h E s b n).1, (swSSL_send h E s b n).2.errno) =
      classify_spec h (E.SSL_write s.eng s.conn.ssl b (int_of_size_t n)).1
        (E.SSL_get_error (E.SSL_write s.eng s.conn.ssl b (int_of_size_t n)).2 s.conn.ssl
          (E.SSL_write s.eng s.conn.ssl b (int_of_size_t n)).1) s.errno := by
  unfold swSSL_send classify_spec
  simp only
  by_cases hn : (E.SSL_write s.eng s.conn.ssl b (int_of_size_t n)).1 < 0
  · rw [if_pos hn, if_neg (not_le.mpr hn)]
    split <;> rfl
  · rw [if_neg hn, if_pos (not_lt.mp hn)]

theorem recv_read_trace (h : Header) (E : Engine σ) (s : State σ) (b : Ptr) (n : Nat) :
    ∃ t, (swSSL_recv_read h E s b n).2.trace =
        s.trace ++ Call.SSL_read s.conn.ssl b (int_of_size_t n) :: t ∧
      ∀ c ∈ t, c.isHandshake = false ∧ c.isRead = false := by
  unfold swSSL_recv_read
  simp only
  split
  · split
    · exact ⟨_, List.append_assoc _ _ _, by simp [Call.isHandshake, Call.isRead]⟩
    · split
      · exact ⟨_, List.append_assoc _ _ _, by simp [Call.isHandshake, Call.isRead]⟩
      · exact ⟨[Call.SSL_get_error s.conn.ssl
            (E.SSL_read s.eng s.conn.ssl b (int_of_size_t n)).1, Call.swWarn],
          by rw [List.append_assoc, List.append_assoc]; rfl,
          by simp [Call.isHandshake, Call.isRead]⟩
  · exact ⟨[], rfl, by simp⟩

theorem recv_of_state_ne_zero (h : Header) (E : Engine σ) (s : State σ) (b : Ptr) (n : Nat)
    (hs : s.conn.ssl_state ≠ 0) : swSSL_recv h E s b n = swSSL_recv_read h E s b n := by
  unfold swSSL_recv
  rw [if_neg hs]

/-- C5, as stated, fails: the handshake state is 0 and the handshake step needs more
input (error code 2).  `swSSL_accept` returns `SW_OK`, so `swSSL_recv` goes on and
invokes `SSL_read`.  In the first run `SSL_read` delivers 5 bytes: the read returns 5,
not `SW_ERR`, and `errno` is not `EAGAIN`.  In the second run `SSL_read` needs more
input as well: the read returns `SW_ERR` with `errno = EAGAIN`, yet `SSL_read` was
invoked. -/
theorem recv_wouldBlock_invokes_read_counterexample :
    (simState 0 [(-1, 2), (5, 0)]).conn.ssl_state = 0 ∧
    wouldBlock swoole_h simEngine 7
      (simEngine.SSL_do_handshake (simState 0 [(-1, 2), (5, 0)]).eng 7) ∧
    (swSSL_recv swoole_h simEngine (simState 0 [(-1, 2), (5, 0)]) 100 16).1 = 5 ∧
    (swSSL_recv swoole_h simEngine (simState 0 [(-1, 2), (5, 0)]) 100 16).2.errno = 0 ∧
    (swSSL_recv swoole_h simEngine (simState 0 [(-1, 2), (5, 0)]) 100 16).2.trace =
      [Call.SSL_do_handshake 7, Call.SSL_get_error 7 (-1), Call.SSL_read 7 100 16] ∧
    wouldBlock swoole_h simEngine 7
      (simEngine.SSL_do_handshake (simState 0 [(-1, 2), (-1, 2)]).eng 7) ∧
    (swSSL_recv swoole_h simEngine (simState 0 [(-1, 2), (-1, 2)]) 100 16).1 =
      swoole_h.SW_ERR ∧
    (swSSL_recv swoole_h simEngine (simState 0 [(-1, 2), (-1, 2)]) 100 16).2.errno =
      swoole_h.EAGAIN ∧
    (swSSL_recv swoole_h simEngine (simState 0 [(-1, 2), (-1, 2)]) 100 16).2.trace =
      [Call.SSL_do_handshake 7, Call.SSL_get_error 7 (-1), Call.SSL_read 7 100 16,
        Call.SSL_get_error 7 (-1)] := by
  decide

/-- C5, amended: if a read is attempted while the handshake state is 0 and the
handshake step it attempts would block, `swSSL_accept` returns `SW_OK` (not negative),
and the read goes on to invoke `SSL_read` exactly once, on the engine as the handshake
step left it; it returns the classification of that result (`n` when `n >= 0`, else
`SW_ERR` with `errno = EAGAIN` exactly for the two retry signals) and leaves the
connection record unchanged. -/
theorem recv_wouldBlock_proceeds_to_read (h : Header) (E : Engine σ) (s : State σ)
    (b : Ptr) (n : Nat) (hOK : 0 ≤ h.SW_OK) (hs : s.conn.ssl_state = 0)
    (hb : wouldBlock h E s.conn.ssl (E.SSL_do_handshake s.eng s.conn.ssl)) :
    ((swSSL_recv h E s b n).1, (swSSL_recv h E s b n).2.errno) =
      classify_spec h
        (E.SSL_read (E.SSL_do_handshake s.eng s.conn.ssl).2 s.conn.ssl b (int_of_size_t n)).1
        (E.SSL_get_error
          (E.SSL_read (E.SSL_do_handshake s.eng s.conn.ssl).2 s.conn.ssl b
            (int_of_size_t n)).2 s.conn.ssl
          (E.SSL_read (E.SSL_do_handshake s.eng s.conn.ssl).2 s.conn.ssl b
            (int_of_size_t n)).1) s.errno ∧
    (swSSL_recv h E s b n).2.conn = s.conn ∧
    ∃ t, (swSSL_recv h E s b n).2.trace =
        s.trace ++ [Call.SSL_do_handshake s.conn.ssl,
          Call.SSL_get_error s.conn.ssl (E.SSL_do_handshake s.eng s.conn.ssl).1,
          Call.SSL_read s.conn.ssl b (int_of_size_t n)] ++ t ∧
      ∀ c ∈ t, c.isHandshake = false ∧ c.isRead = false := by
  have e := accept_wouldBlock h E s hb
  have hr : swSSL_recv h E s b n = swSSL_recv_read h E (swSSL_accept h E s).2 b n := by
    unfold swSSL_recv
    rw [if_pos hs]
    simp only
    rw [if_neg]
    rw [e]
    exact not_lt.mpr hOK
  rw [hr, e]
  refine ⟨recv_read_classify h E _ b n, recv_read_conn h E _ b n, ?_⟩
  obtain ⟨t, ht, hno⟩ := recv_read_trace h E
    { s with eng := (E.SSL_do_handshake s.eng s.conn.ssl).2,
             trace := s.trace ++ [Call.SSL_do_handshake s.conn.ssl,
               Call.SSL_get_error s.conn.ssl (E.SSL_do_handshake s.eng s.conn.ssl).1] } b n
  refine ⟨t, ?_, hno⟩
  rw [ht]
  simp

/-- C5, amended, a concrete run: the handshake step needs more input, then `SSL_read`
delivers 5 bytes. -/
theorem recv_wouldBlock_proceeds_to_read_witness :
    ((swSSL_recv swoole_h simEngine (simState 0 [(-1, 2), (5, 0)]) 100 16).1,
      (swSSL_recv swoole_h simEngine (simState 0 [(-1, 2), (5, 0)]) 100 16).2.errno) =
      ((5 : Int), (0 : Int)) ∧
    (swSSL_recv swoole_h simEngine (simState 0 [(-1, 2), (5, 0)]) 100 16).2.conn =
      (simState 0 [(-1, 2), (5, 0)]).conn :=
  have w := recv_wouldBlock_proceeds_to_read swoole_h simEngine
    (simState 0 [(-1, 2), (5, 0)]) 100 16 (by decide) rfl (by decide)
  ⟨w.1.trans (by decide), w.2.1⟩

/-- C6: if a read is attempted while the handshake state is 0 and the handshake step it
attempts fails fatally (`swSSL_accept` returns `SW_ERR`, a negative value), then for
every buffer and length the read returns exactly 0, ends in the state `swSSL_accept`
left, invokes no `SSL_read`, and leaves `errno` as it was. -/
theorem recv_fatal_handshake_returns_zero (h : Header) (E : Engine σ) (s : State σ)
    (hErr : h.SW_ERR < 0) (hs : s.conn.ssl_state = 0)
    (hf : (swSSL_accept h E s).1 = h.SW_ERR) (b : Ptr) (n : Nat) :
    (swSSL_recv h E s b n).1 = 0 ∧
    (swSSL_recv h E s b n).2 = (swSSL_accept h E s).2 ∧
    (swSSL_recv h E s b n).2.errno = s.errno ∧
    ∃ t, (swSSL_recv h E s b n).2.trace = s.trace ++ t ∧ ∀ c ∈ t, c.isRead = false := by
  have hr : swSSL_recv h E s b n = (0, (swSSL_accept h E s).2) := by
    unfold swSSL_recv
    rw [if_pos hs]
    simp only
    rw [if_pos]
    rw [hf]
    exact hErr
  rw [hr]
  exact ⟨rfl, rfl, accept_errno h E s, accept_trace h E s⟩

/-- C6, a concrete run: the handshake step fails with error code 1. -/
theorem recv_fatal_handshake_returns_zero_witness :
    swoole_h.SW_ERR < 0 ∧
    (swSSL_accept swoole_h simEngine (simState 0 [(-1, 1), (5, 0)])).1 = swoole_h.SW_ERR ∧
    (swSSL_recv swoole_h simEngine (simState 0 [(-1, 1), (5, 0)]) 100 16).1 = 0 ∧
    (swSSL_recv swoole_h simEngine (simState 0 [(-1, 1), (5, 0)]) 100 16).2.errno = 0 :=
  have w := recv_fatal_handshake_returns_zero swoole_h simEngine
    (simState 0 [(-1, 1), (5, 0)]) (by decide) rfl (by decide) 100 16
  ⟨by decide, by decide, w.1, w.2.2.1⟩

theorem callOp_ready (h : Header) (E : Engine σ) (s : State σ) (o : Op)
    (hReady : h.SW_SSL_STATE_READY = 1) (hs : s.conn.ssl_state = h.SW_SSL_STATE_READY) :
    (callOp h E s o).2.conn.ssl_state = h.SW_SSL_STATE_READY := by
  have hne : s.conn.ssl_state ≠ 0 := by rw [hs, hReady]; decide
  cases o with
  | accept =>
    rcases accept_conn h E s with k | k
    · show (swSSL_accept h E s).2.conn.ssl_state = _
      rw [k]
    · show (swSSL_accept h E s).2.conn.ssl_state = _
      rw [k, hs]
  | connect =>
    rcases connect_conn h E s with k | k
    · show (swSSL_connect h E s).2.conn.ssl_state = _
      rw [k, hReady]
    · show (swSSL_connect h E s).2.conn.ssl_state = _
      rw [k, hs]
  | recv b n =>
    show (swSSL_recv h E s b n).2.conn.ssl_state = _
    rw [recv_of_state_ne_zero h E s b n hne, recv_read_conn, hs]
  | send b n =>
    show (swSSL_send h E s b n).2.conn.ssl_state = _
    rw [send_conn, hs]

theorem runOps_ready (h : Header) (E : Engine σ) (hReady : h.SW_SSL_STATE_READY = 1)
    (ops : List Op) : ∀ s : State σ, s.conn.ssl_state = h.SW_SSL_STATE_READY →
      (runOps h E s ops).conn.ssl_state = h.SW_SSL_STATE_READY := by
  induction ops with
  | nil => intro s hs; exact hs
  | cons o os ih =>
    intro s hs
    exact ih (callOp h E s o).2 (callOp_ready h E s o hReady hs)

/-- C7: with Ready being the value 1 that both drivers store, once the handshake state
of a connection is Ready it is Ready after every sequence of later calls of
`swSSL_accept`, `swSSL_connect`, `swSSL_recv` and `swSSL_send`, whatever the engine
does; and a read in any of these states invokes no handshake step: the calls it adds to
the trace are one `SSL_read` followed by calls that are not handshake steps. -/
theorem ready_is_stable (h : Header) (E : Engine σ) (s : State σ) (ops : List Op)
    (hReady : h.SW_SSL_STATE_READY = 1) (hs : s.conn.ssl_state = h.SW_SSL_STATE_READY) :
    (runOps h E s ops).conn.ssl_state = h.SW_SSL_STATE_READY ∧
    ∀ (b : Ptr) (n : Nat),
      ∃ t, (swSSL_recv h E (runOps h E s ops) b n).2.trace = (runOps h E s ops).trace ++ t ∧
        ∀ c ∈ t, c.isHandshake = false := by
  have k := runOps_ready h E hReady ops s hs
  refine ⟨k, ?_⟩
  intro b n
  have hne : (runOps h E s ops).conn.ssl_state ≠ 0 := by rw [k, hReady]; decide
  rw [recv_of_state_ne_zero h E _ b n hne]
  obtain ⟨t, ht, hno⟩ := recv_read_trace h E (runOps h E s ops) b n
  refine ⟨_, ht, ?_⟩
  intro c hc
  rcases List.mem_cons.mp hc with rfl | hc
  · rfl
  · exact (hno c hc).1

/-- C7, a concrete run from a Ready connection: a handshake call that would block, a
read of 4 bytes, a failing `swSSL_connect`, a write, a completing `swSSL_accept`. -/
theorem ready_is_stable_witness :
    (runOps swoole_h simEngine (simState 1 [(-1, 2), (4, 0), (-1, 1), (3, 0), (1, 0)])
      [Op.accept, Op.recv 100 16, Op.connect, Op.send 200 3, Op.accept]).conn.ssl_state = 1 :=
  (ready_is_stable swoole_h simEngine (simState 1 [(-1, 2), (4, 0), (-1, 1), (3, 0), (1, 0)])
    [Op.accept, Op.recv 100 16, Op.connect, Op.send 200 3, Op.accept] rfl rfl).1

/-- C8: on a Ready connection `swSSL_recv` and `swSSL_send` classify the engine's
result in the same way.  When `SSL_read` (resp. `SSL_write`) returns `n` with error code
`e`, the call returns `n` when `n >= 0` and `SW_ERR` when `n < 0`, and `errno` is
`EAGAIN` after the call if `n < 0` and `e` is `SSL_ERROR_WANT_READ` or
`SSL_ERROR_WANT_WRITE`, and untouched otherwise (`SSL_ERROR_SYSCALL` included); for
equal `(n, e)` the two calls give equal return values and equal `errno`. -/
theorem recv_send_classify_alike (h : Header) (E : Engine σ) (s : State σ)
    (b : Ptr) (len : Nat) (b2 : Ptr) (len2 : Nat) (n e : Int)
    (hReady : h.SW_SSL_STATE_READY = 1) (hs : s.conn.ssl_state = h.SW_SSL_STATE_READY) :
    ((E.SSL_read s.eng s.conn.ssl b (int_of_size_t len)).1 = n →
      E.SSL_get_error (E.SSL_read s.eng s.conn.ssl b (int_of_size_t len)).2 s.conn.ssl n = e →
      ((swSSL_recv h E s b len).1, (swSSL_recv h E s b len).2.errno) =
        classify_spec h n e s.errno) ∧
    ((E.SSL_write s.eng s.conn.ssl b2 (int_of_size_t len2)).1 = n →
      E.SSL_get_error (E.SSL_write s.eng s.conn.ssl b2 (int_of_size_t len2)).2 s.conn.ssl n = e →
      ((swSSL_send h E s b2 len2).1, (swSSL_send h E s b2 len2).2.errno) =
        classify_spec h n e s.errno) ∧
    ((E.SSL_read s.eng s.conn.ssl b (int_of_size_t len)).1 = n →
      E.SSL_get_error (E.SSL_read s.eng s.conn.ssl b (int_of_size_t len)).2 s.conn.ssl n = e →
      (E.SSL_write s.eng s.conn.ssl b2 (int_of_size_t len2)).1 = n →
      E.SSL_get_error (E.SSL_write s.eng s.conn.ssl b2 (int_of_size_t len2)).2 s.conn.ssl n = e →
      (swSSL_recv h E s b len).1 = (swSSL_send h E s b2 len2).1 ∧
      (swSSL_recv h E s b len).2.errno = (swSSL_send h E s b2 len2).2.errno) ∧
    (0 ≤ n → classify_spec h n e s.errno = (n, s.errno)) ∧
    (n < 0 → (e = h.SSL_ERROR_WANT_READ ∨ e = h.SSL_ERROR_WANT_WRITE) →
      classify_spec h n e s.errno = (h.SW_ERR, h.EAGAIN)) ∧
    (n < 0 → ¬ (e = h.SSL_ERROR_WANT_READ ∨ e = h.SSL_ERROR_WANT_WRITE) →
      classify_spec h n e s.errno = (h.SW_ERR, s.errno)) := by
  have hne : s.conn.ssl_state ≠ 0 := by rw [hs, hReady]; decide
  have hrecv : ∀ (hn : (E.SSL_read s.eng s.conn.ssl b (int_of_size_t len)).1 = n)
      (_ : E.SSL_get_error (E.SSL_read s.eng s.conn.ssl b (int_of_size_t len)).2
        s.conn.ssl n = e),
      ((swSSL_recv h E s b len).1, (swSSL_recv h E s b len).2.errno) =
        classify_spec h n e s.errno := by
    intro hn he
    rw [recv_of_state_ne_zero h E s b len hne, recv_read_classify, hn, he]
  have hsend : ∀ (hn : (E.SSL_write s.eng s.conn.ssl b2 (int_of_size_t len2)).1 = n)
      (_ : E.SSL_get_error (E.SSL_write s.eng s.conn.ssl b2 (int_of_size_t len2)).2
        s.conn.ssl n = e),
      ((swSSL_send h E s b2 len2).1, (swSSL_send h E s b2 len2).2.errno) =
        classify_spec h n e s.errno := by
    intro hn he
    rw [send_classify, hn, he]
  refine ⟨hrecv, hsend, ?_, ?_, ?_, ?_⟩
  · intro hn he hm hf
    have k := (hrecv hn he).trans (hsend hm hf).symm
    exact ⟨(Prod.mk.inj k).1, (Prod.mk.inj k).2⟩
  · intro hn
    unfold classify_spec
    rw [if_pos hn]
  · intro hn he
    unfold classify_spec
    rw [if_neg (not_le.mpr hn), if_pos he]
  · intro hn he
    unfold classify_spec
    rw [if_neg (not_le.mpr hn), if_neg he]

/-- C8, a concrete run on a Ready connection: the engine answers -1 with error code 3
(needs to flush output) to the read and to the write. -/
theorem recv_send_classify_alike_witness :
    (swSSL_recv swoole_h simEngine (simState 1 [(-1, 3)]) 100 16).1 = -1 ∧
    (swSSL_recv swoole_h simEngine (simState 1 [(-1, 3)]) 100 16).2.errno = 11 ∧
    (swSSL_send swoole_h simEngine (simState 1 [(-1, 3)]) 200 4).1 = -1 ∧
    (swSSL_send swoole_h simEngine (simState 1 [(-1, 3)]) 200 4).2.errno = 11 :=
  have w := recv_send_classify_alike swoole_h simEngine (simState 1 [(-1, 3)])
    100 16 200 4 (-1) 3 rfl rfl
  have r := (w.1 (by decide) (by decide)).trans
    (w.2.2.2.2.1 (by decide) (by decide))
  have q := (w.2.1 (by decide) (by decide)).trans
    (w.2.2.2.2.1 (by decide) (by decide))
  ⟨(Prod.mk.inj r).1, (Prod.mk.inj r).2, (Prod.mk.inj q).1, (Prod.mk.inj q).2⟩

/-! ## Teardown and creation -/

/-- C9, as stated, fails: two consecutive calls of `swSSL_close` on a connection with
session handle 7 make two `SSL_shutdown` and two `SSL_free` calls on 7; the engine has
released 7 twice, and two of its calls (the second shutdown and the second release) hit
a handle that was already released; `conn->ssl` is still 7. -/
theorem close_twice_releases_twice_counterexample :
    (swSSL_close simEngine (swSSL_close simEngine (simState 1 []))).trace =
      [Call.SSL_shutdown 7, Call.SSL_free 7, Call.SSL_shutdown 7, Call.SSL_free 7] ∧
    List.count (Call.SSL_free 7)
      (swSSL_close simEngine (swSSL_close simEngine (simState 1 []))).trace = 2 ∧
    (swSSL_close simEngine (swSSL_close simEngine (simState 1 []))).eng.released = [7, 7] ∧
    (swSSL_close simEngine (swSSL_close simEngine (simState 1 []))).eng.stale = 2 ∧
    (swSSL_close simEngine (simState 1 [])).eng.released = [7] ∧
    (swSSL_close simEngine (simState 1 [])).eng.stale = 0 ∧
    (swSSL_close simEngine (swSSL_close simEngine (simState 1 []))).conn.ssl = 7 := by
  decide

/-- C9, amended: every call of `swSSL_close` makes exactly one `SSL_shutdown` call
followed by exactly one `SSL_free` call on `conn->ssl`, without a guard, and leaves the
connection record (`conn->ssl` included) and `errno` unchanged.  One call releases the
session exactly once; a second consecutive call shuts down and releases the same handle
again, so that the release count of two calls is 2. -/
theorem close_releases_once_per_call (E : Engine σ) (s : State σ) :
    (swSSL_close E s).conn = s.conn ∧
    (swSSL_close E s).errno = s.errno ∧
    (swSSL_close E s).eng = E.SSL_free (E.SSL_shutdown s.eng s.conn.ssl).2 s.conn.ssl ∧
    (swSSL_close E s).trace =
      s.trace ++ [Call.SSL_shutdown s.conn.ssl, Call.SSL_free s.conn.ssl] ∧
    List.count (Call.SSL_free s.conn.ssl) (swSSL_close E s).trace =
      List.count (Call.SSL_free s.conn.ssl) s.trace + 1 ∧
    (swSSL_close E (swSSL_close E s)).trace =
      s.trace ++ [Call.SSL_shutdown s.conn.ssl, Call.SSL_free s.conn.ssl,
        Call.SSL_shutdown s.conn.ssl, Call.SSL_free s.conn.ssl] ∧
    List.count (Call.SSL_free s.conn.ssl) (swSSL_close E (swSSL_close E s)).trace =
      List.count (Call.SSL_free s.conn.ssl) s.trace + 2 := by
  have ht : (swSSL_close E s).trace =
      s.trace ++ [Call.SSL_shutdown s.conn.ssl, Call.SSL_free s.conn.ssl] := by
    simp [swSSL_close]
  have ht2 : (swSSL_close E (swSSL_close E s)).trace =
      s.trace ++ [Call.SSL_shutdown s.conn.ssl, Call.SSL_free s.conn.ssl,
        Call.SSL_shutdown s.conn.ssl, Call.SSL_free s.conn.ssl] := by
    simp [swSSL_close]
  refine ⟨rfl, rfl, rfl, ht, ?_, ht2, ?_⟩
  · rw [ht]
    simp [List.count_append, List.count_cons]
  · rw [ht2]
    simp [List.count_append, List.count_cons]

/-- C10: `swSSL_create` only sets up state.  When the engine allocates a session and
binds the fd, it returns `SW_OK`, stores the new session in the connection, sets the
handshake state to 0, and makes exactly the calls `SSL_new`, `SSL_set_fd` and then
`SSL_set_connect_state` if `flags & SW_SSL_CLIENT` is non-zero, `SSL_set_accept_state`
otherwise: no handshake step.  When the allocation fails or the fd cannot be bound it
returns `SW_ERR` and leaves the connection record unchanged. -/
theorem create_only_sets_up_state (h : Header) (E : Engine σ) (s : State σ)
    (ssl_context : Ptr) (flags : Int) :
    ((E.SSL_new s.eng ssl_context).1 ≠ 0 →
      (E.SSL_set_fd (E.SSL_new s.eng ssl_context).2 (E.SSL_new s.eng ssl_context).1
        s.conn.fd).1 ≠ 0 →
      (swSSL_create h E s ssl_context flags).1 = h.SW_OK ∧
      (swSSL_create h E s ssl_context flags).2.conn =
        { fd := s.conn.fd, ssl := (E.SSL_new s.eng ssl_context).1, ssl_state := 0 } ∧
      (swSSL_create h E s ssl_context flags).2.trace =
        s.trace ++ [Call.SSL_new ssl_context,
          Call.SSL_set_fd (E.SSL_new s.eng ssl_context).1 s.conn.fd,
          if Int.land flags h.SW_SSL_CLIENT ≠ 0
          then Call.SSL_set_connect_state (E.SSL_new s.eng ssl_context).1
          else Call.SSL_set_accept_state (E.SSL_new s.eng ssl_context).1] ∧
      (∀ c ∈ (swSSL_create h E s ssl_context flags).2.trace,
        c.isHandshake = true → c ∈ s.trace)) ∧
    ((E.SSL_new s.eng ssl_context).1 = 0 →
      (swSSL_create h E s ssl_context flags).1 = h.SW_ERR ∧
      (swSSL_create h E s ssl_context flags).2.conn = s.conn) ∧
    ((E.SSL_new s.eng ssl_context).1 ≠ 0 →
      (E.SSL_set_fd (E.SSL_new s.eng ssl_context).2 (E.SSL_new s.eng ssl_context).1
        s.conn.fd).1 = 0 →
      (swSSL_create h E s ssl_context flags).1 = h.SW_ERR ∧
      (swSSL_create h E s ssl_context flags).2.conn = s.conn) := by
  refine ⟨?_, ?_, ?_⟩
  · intro hnew hfd
    have ht : (swSSL_create h E s ssl_context flags).2.trace =
        s.trace ++ [Call.SSL_new ssl_context,
          Call.SSL_set_fd (E.SSL_new s.eng ssl_context).1 s.conn.fd,
          if Int.land flags h.SW_SSL_CLIENT ≠ 0
          then Call.SSL_set_connect_state (E.SSL_new s.eng ssl_context).1
          else Call.SSL_set_accept_state (E.SSL_new s.eng ssl_context).1] := by
      unfold swSSL_create
      simp only [hnew, hfd, if_false]
      split <;> simp
    refine ⟨?_, ?_, ht, ?_⟩
    · unfold swSSL_create
      simp only [hnew, hfd, if_false]
    · unfold swSSL_create
      simp only [hnew, hfd, if_false]
      split <;> rfl
    · intro c hc hh
      rw [ht] at hc
      rcases List.mem_append.mp hc with hc | hc
      · exact hc
      · exfalso
        simp only [List.mem_cons, List.mem_singleton, List.not_mem_nil, or_false] at hc
        rcases hc with rfl | rfl | rfl
        · simp [Call.isHandshake] at hh
        · simp [Call.isHandshake] at hh
        · split at hh <;> simp [Call.isHandshake] at hh
  · intro hnew
    unfold swSSL_create
    simp [hnew]
  · intro hnew hfd
    unfold swSSL_create
    simp [hnew, hfd]

/-- C10, concrete runs: with flags 2 (the `SW_SSL_CLIENT` bit) the session 8 is put in
connect state; with allocation failing the connection keeps handle 7 and state 1. -/
theorem create_only_sets_up_state_witness :
    (swSSL_create swoole_h simEngine (simState 1 []) 3 2).1 = 0 ∧
    (swSSL_create swoole_h simEngine (simState 1 []) 3 2).2.conn =
      { fd := 5, ssl := 8, ssl_state := 0 } ∧
    (swSSL_create swoole_h simEngine (simState 1 []) 3 2).2.trace =
      [Call.SSL_new 3, Call.SSL_set_fd 8 5, Call.SSL_set_connect_state 8] ∧
    (swSSL_create swoole_h simEngine
      { simState 1 [] with eng := { (simState 1 []).eng with next := 0 } } 3 2).1 = -1 ∧
    (swSSL_create swoole_h simEngine
      { simState 1 [] with eng := { (simState 1 []).eng with next := 0 } } 3 2).2.conn =
      { fd := 5, ssl := 7, ssl_state := 1 } ∧
    (swSSL_create swoole_h simEngine
      { simState 1 [] with conn := { (simState 1 []).conn with fd := -1 } } 3 2).1 = -1 ∧
    (swSSL_create swoole_h simEngine
      { simState 1 [] with conn := { (simState 1 []).conn with fd := -1 } } 3 2).2.conn =
      { fd := -1, ssl := 7, ssl_state := 1 } :=
  have a := (create_only_sets_up_state swoole_h simEngine (simState 1 []) 3 2).1
    (by decide) (by decide)
  have f := (create_only_sets_up_state swoole_h simEngine
    { simState 1 [] with eng := { (simState 1 []).eng with next := 0 } } 3 2).2.1 (by decide)
  have g := (create_only_sets_up_state swoole_h simEngine
    { simState 1 [] with conn := { (simState 1 []).conn with fd := -1 } } 3 2).2.2
    (by decide) (by decide)
  ⟨a.1, a.2.1, a.2.2.1.trans (by decide), f.1, f.2, g.1, g.2⟩

end Swoole
